import Mathlib

/-!
Verification of the retrieval and media-processing layer of
Multi-Modal-Video-RAG, shallowly embedded from `src/retriever.py` and
`src/video_processor.py`.
-/

/-- Errors a Python call in this code base can surface. `exc` stands for an
arbitrary exception raised by the backend engine; the remaining constructors
name the error classes the design documentation speaks of, so that statements
about them can be made (the repository's code never raises them). -/
inductive PyErr where
  | exc (msg : String)
  | emptyQueryError
  | corruptIndexError (index : Nat)
  | configurationError (msg : String)
  | retrievalBackendError (cause : PyErr)
deriving DecidableEq, Repr

instance {ε α : Type} [DecidableEq ε] [DecidableEq α] : DecidableEq (Except ε α) :=
  fun a b =>
    match a, b with
    | .ok x, .ok y =>
      if h : x = y then .isTrue (congrArg Except.ok h)
      else .isFalse (fun hh => h (Except.ok.inj hh))
    | .error x, .error y =>
      if h : x = y then .isTrue (congrArg Except.error h)
      else .isFalse (fun hh => h (Except.error.inj hh))
    | .ok _, .error _ => .isFalse (fun hh => Except.noConfusion hh)
    | .error _, .ok _ => .isFalse (fun hh => Except.noConfusion hh)

/-- A scored node returned by the underlying similarity-search engine, as seen
by `VideoRetriever.retrieve`.  In the source a node is either an
`ImageNode` (carrying `metadata["file_path"]`) or some other node kind whose
`text` attribute is read; `textNode` is the ordinary text chunk and
`otherNode` a node of any further kind (the dispatch in the source only tests
for `ImageNode`). -/
inductive RetNode where
  | imageNode (file_path : String)
  | textNode (text : String)
  | otherNode (text : String)
deriving DecidableEq, Repr

namespace RetNode

/-- `isinstance(res_node.node, ImageNode)` from `retriever.py` line 34. -/
def isImageNode : RetNode → Bool
  | .imageNode _ => true
  | _ => false

/-- Whether the node is the ordinary text-chunk kind. -/
def isTextNode : RetNode → Bool
  | .textNode _ => true
  | _ => false

/-- `res_node.text`, read on the non-image branch (`retriever.py` line 37);
for an image node this attribute is never read by the source, so its value
here is immaterial. -/
def nodeText : RetNode → String
  | .imageNode _ => ""
  | .textNode t => t
  | .otherNode t => t

end RetNode

namespace VideoRetriever

/-- The retriever object built by `VideoRetriever.__init__`: it keeps the two
top-k values it passed to `index.as_retriever`. -/
structure State where
  similarity_top_k : Int
  image_similarity_top_k : Int
deriving DecidableEq, Repr

/-- `VideoRetriever.__init__` (`retriever.py` lines 9-23): stores the index
and builds the engine with the two k values.  The source performs no
validation of the k values and defines no error class for them, so
construction always succeeds. -/
def init (similarity_top_k image_similarity_top_k : Int) : Except PyErr State :=
  .ok { similarity_top_k := similarity_top_k, image_similarity_top_k := image_similarity_top_k }

/-- The routing loop of `retrieve` (`retriever.py` lines 33-37): image nodes
append their `file_path` to the image list, every other node appends its
`text` to the text list, in the order the engine returned them. -/
def routeLoop (imgs txts : List String) : List RetNode → List String × List String
  | [] => (imgs, txts)
  | .imageNode p :: rest => routeLoop (imgs ++ [p]) txts rest
  | .textNode t :: rest => routeLoop imgs (txts ++ [t]) rest
  | .otherNode t :: rest => routeLoop imgs (txts ++ [t]) rest

/-- `VideoRetriever.retrieve` (`retriever.py` lines 25-46).  The engine is the
similarity-search backend (`self.retriever_engine.retrieve`), modelled as a
function from the query string to either a result list or a raised exception.
The `except` clause of the source logs the exception and re-raises it
unchanged. -/
def retrieve (engine : String → Except PyErr (List RetNode)) (query_str : String) :
    Except PyErr (List String × List String) :=
  match engine query_str with
  | .ok results => .ok (routeLoop [] [] results)
  | .error e => .error e

/-- An engine that returns the same result list for every query. -/
def constEngine (results : List RetNode) : String → Except PyErr (List RetNode) :=
  fun _ => .ok results

/-- An engine that raises the same exception for every query. -/
def failEngine (e : PyErr) : String → Except PyErr (List RetNode) :=
  fun _ => .error e

/-- The `file_path`s of the image nodes of a result list, in order. -/
def imagePathsOf (results : List RetNode) : List String :=
  results.filterMap fun n => match n with | .imageNode p => some p | _ => none

/-- The `text`s of the text nodes of a result list, in order. -/
def textPayloadsOf (results : List RetNode) : List String :=
  results.filterMap fun n => match n with | .textNode t => some t | _ => none

/-- The `text`s of all non-image nodes of a result list, in order: this is
what the source's `else` branch collects. -/
def nonImageTextsOf (results : List RetNode) : List String :=
  results.filterMap fun n => match n with | .imageNode _ => none | n => some n.nodeText

/-- The routing loop appends exactly the image paths to the first list and
the non-image texts to the second, preserving order. -/
theorem routeLoop_eq (results : List RetNode) : ∀ imgs txts,
    routeLoop imgs txts results = (imgs ++ imagePathsOf results, txts ++ nonImageTextsOf results) := by
  induction results with
  | nil => intro imgs txts; simp [routeLoop, imagePathsOf, nonImageTextsOf]
  | cons n rest ih =>
    intro imgs txts
    cases n with
    | imageNode p =>
      simp [routeLoop, ih, imagePathsOf, nonImageTextsOf, List.filterMap_cons]
    | textNode t =>
      simp [routeLoop, ih, imagePathsOf, nonImageTextsOf, List.filterMap_cons, RetNode.nodeText]
    | otherNode t =>
      simp [routeLoop, ih, imagePathsOf, nonImageTextsOf, List.filterMap_cons, RetNode.nodeText]

/-- Modelled from the spec: the Evidence Store's `search` guarantee (§4.1),
implemented by the external llama_index retriever engine and therefore not in
this repository: the result list holds at most `image_k` image items and at
most `text_k` text items and consists solely of the two evidence variants. -/
def SearchContract (results : List RetNode) (text_k image_k : Nat) : Prop :=
  results.countP (fun n => n.isImageNode) ≤ image_k ∧
  results.countP (fun n => n.isTextNode) ≤ text_k ∧
  ∀ n ∈ results, n.isImageNode = true ∨ n.isTextNode = true

instance (results : List RetNode) (text_k image_k : Nat) :
    Decidable (SearchContract results text_k image_k) := by
  unfold SearchContract; infer_instance

/-- On a two-variant result list the non-image texts are exactly the texts of
the text nodes. -/
theorem nonImageTextsOf_eq_textPayloadsOf (results : List RetNode)
    (h : ∀ n ∈ results, n.isImageNode = true ∨ n.isTextNode = true) :
    nonImageTextsOf results = textPayloadsOf results := by
  induction results with
  | nil => rfl
  | cons n rest ih =>
    have hn := h n (by simp)
    have hrest : ∀ m ∈ rest, m.isImageNode = true ∨ m.isTextNode = true :=
      fun m hm => h m (by simp [hm])
    cases n with
    | imageNode p => simp [nonImageTextsOf, textPayloadsOf, List.filterMap_cons] at ih ⊢; exact ih hrest
    | textNode t => simp [nonImageTextsOf, textPayloadsOf, List.filterMap_cons, RetNode.nodeText] at ih ⊢; exact ih hrest
    | otherNode t => simp [RetNode.isImageNode, RetNode.isTextNode] at hn

/-- The image-path list is as long as the count of image nodes. -/
theorem imagePathsOf_length (results : List RetNode) :
    (imagePathsOf results).length = results.countP (fun n => n.isImageNode) := by
  induction results with
  | nil => rfl
  | cons n rest ih =>
    cases n <;>
      simp [imagePathsOf, List.filterMap_cons, List.countP_cons, RetNode.isImageNode] at ih ⊢ <;>
      omega

/-- The text-payload list is as long as the count of text nodes. -/
theorem textPayloadsOf_length (results : List RetNode) :
    (textPayloadsOf results).length = results.countP (fun n => n.isTextNode) := by
  induction results with
  | nil => rfl
  | cons n rest ih =>
    cases n <;>
      simp [textPayloadsOf, List.filterMap_cons, List.countP_cons, RetNode.isTextNode] at ih ⊢ <;>
      omega

end VideoRetriever

open VideoRetriever in
/-- C1: when the engine succeeds and every returned item is an image or text
variant, `retrieve` returns exactly the image items' file paths (in the
engine's rank order) as the image list and the text items' texts (in the
engine's rank order) as the text list: each item is routed by its variant to
exactly one list, none is dropped, none is duplicated, and neither list is
re-sorted or interleaved. -/
theorem retrieve_partitions_by_variant
    (engine : String → Except PyErr (List RetNode)) (q : String)
    (results : List RetNode)
    (hok : engine q = .ok results)
    (hvar : ∀ n ∈ results, n.isImageNode = true ∨ n.isTextNode = true) :
    retrieve engine q = .ok (imagePathsOf results, textPayloadsOf results) := by
  unfold retrieve
  rw [hok]
  dsimp only
  rw [routeLoop_eq, nonImageTextsOf_eq_textPayloadsOf results hvar]
  simp

open VideoRetriever RetNode in
/-- Witness for C1 at a concrete four-item store result. -/
theorem retrieve_partitions_by_variant_witness :
    constEngine [imageNode "f0.png", textNode "alpha", imageNode "f1.png", textNode "beta"] "q"
      = .ok [imageNode "f0.png", textNode "alpha", imageNode "f1.png", textNode "beta"] ∧
    (∀ n ∈ [imageNode "f0.png", textNode "alpha", imageNode "f1.png", textNode "beta"],
      n.isImageNode = true ∨ n.isTextNode = true) ∧
    retrieve (constEngine [imageNode "f0.png", textNode "alpha", imageNode "f1.png", textNode "beta"]) "q"
      = .ok (["f0.png", "f1.png"], ["alpha", "beta"]) :=
  by
  refine ⟨rfl, by decide, ?_⟩
  exact retrieve_partitions_by_variant
    (constEngine [imageNode "f0.png", textNode "alpha", imageNode "f1.png", textNode "beta"]) "q"
    [imageNode "f0.png", textNode "alpha", imageNode "f1.png", textNode "beta"]
    rfl (by decide)

/-- Whether a character is one of the usual whitespace characters stripped by
Python's `str.strip`. -/
def isPyWhitespace (c : Char) : Bool := c = ' ' || c = '\t' || c = '\n' || c = '\r'

/-- Whether a query string is empty or consists only of whitespace
(Python's `not query.strip()`). -/
def isBlankQuery (s : String) : Bool := s.data.all isPyWhitespace

open VideoRetriever in
/-- C2 counterexample: `retrieve` does not reject the empty query.  With a
store whose search returns no hits, `retrieve("")` returns an empty result
instead of raising `EmptyQueryError`: no emptiness check exists in
`retriever.py`. -/
theorem retrieve_empty_query_not_rejected :
    retrieve (constEngine []) "" = .ok ([], []) ∧
    retrieve (constEngine []) "" ≠ .error PyErr.emptyQueryError ∧
    retrieve (constEngine []) "   " ≠ .error PyErr.emptyQueryError := by
  refine ⟨rfl, ?_, ?_⟩ <;> decide

open VideoRetriever in
/-- C2 amended: for every query that is empty or whitespace-only, `retrieve`
performs no emptiness check: it forwards the query to the engine unchanged
and, when the engine succeeds, returns the partitioned result normally — no
`EmptyQueryError` is raised. -/
theorem retrieve_forwards_blank_query
    (engine : String → Except PyErr (List RetNode)) (q : String)
    (results : List RetNode)
    (_hblank : isBlankQuery q = true)
    (hok : engine q = .ok results) :
    retrieve engine q = .ok (routeLoop [] [] results) := by
  unfold retrieve
  rw [hok]

open VideoRetriever in
/-- Witness for C2-amended at the whitespace-only query `"   "`. -/
theorem retrieve_forwards_blank_query_witness :
    isBlankQuery "   " = true ∧
    constEngine [RetNode.textNode "t"] "   " = .ok [RetNode.textNode "t"] ∧
    retrieve (constEngine [RetNode.textNode "t"]) "   " = .ok ([], ["t"]) :=
  ⟨by decide, rfl,
    retrieve_forwards_blank_query (constEngine [RetNode.textNode "t"]) "   "
      [RetNode.textNode "t"] (by decide) rfl⟩

open VideoRetriever RetNode in
/-- C3 counterexample: a store entry that is neither image nor text variant
does not make `retrieve` raise `CorruptIndexError`.  With a single unknown
entry at position 0, `retrieve` succeeds and routes the entry's `text` to the
texts list: the `isinstance` dispatch of `retriever.py` lines 33-37 sends
every non-image node to the text branch. -/
theorem retrieve_unknown_variant_not_rejected :
    retrieve (constEngine [otherNode "junk"]) "q" = .ok ([], ["junk"]) ∧
    retrieve (constEngine [otherNode "junk"]) "q" ≠ .error (PyErr.corruptIndexError 0) := by
  refine ⟨rfl, ?_⟩; decide

open VideoRetriever in
/-- C3 amended: a store entry that is neither variant is not a fatal error:
`retrieve` routes every non-image entry — ordinary text nodes and unknown
kinds alike — to the texts list via its `text` attribute, silently and in
order; no `CorruptIndexError` is raised and no entry is dropped. -/
theorem retrieve_routes_unknown_to_texts
    (engine : String → Except PyErr (List RetNode)) (q : String)
    (results : List RetNode)
    (hok : engine q = .ok results) :
    retrieve engine q = .ok (imagePathsOf results, nonImageTextsOf results) := by
  unfold retrieve
  rw [hok]
  dsimp only
  rw [routeLoop_eq]
  simp

open VideoRetriever RetNode in
/-- Witness for C3-amended: a store with an unknown-variant entry between a
text entry and an image entry. -/
theorem retrieve_routes_unknown_to_texts_witness :
    constEngine [textNode "a", otherNode "weird", imageNode "f.png"] "q"
      = .ok [textNode "a", otherNode "weird", imageNode "f.png"] ∧
    retrieve (constEngine [textNode "a", otherNode "weird", imageNode "f.png"]) "q"
      = .ok (["f.png"], ["a", "weird"]) :=
  by
  refine ⟨rfl, ?_⟩
  exact retrieve_routes_unknown_to_texts
    (constEngine [textNode "a", otherNode "weird", imageNode "f.png"]) "q"
    [textNode "a", otherNode "weird", imageNode "f.png"] rfl

open VideoRetriever in
/-- C4: when the engine's result obeys the store's search contract — at most
`image_k` image items, at most `text_k` text items, two variants only — the
result of `retrieve` holds at most `image_k` image paths and at most
`text_k` text snippets. -/
theorem retrieve_bounded_cardinality
    (engine : String → Except PyErr (List RetNode)) (q : String)
    (results : List RetNode) (text_k image_k : Nat)
    (hok : engine q = .ok results)
    (hc : SearchContract results text_k image_k) :
    ∃ imgs txts, retrieve engine q = .ok (imgs, txts) ∧
      imgs.length ≤ image_k ∧ txts.length ≤ text_k := by
  obtain ⟨himg, htxt, hvar⟩ := hc
  refine ⟨imagePathsOf results, textPayloadsOf results,
    retrieve_partitions_by_variant engine q results hok hvar, ?_, ?_⟩
  · rw [imagePathsOf_length]; exact himg
  · rw [textPayloadsOf_length]; exact htxt

open VideoRetriever RetNode in
/-- Witness for C4: three text hits and one image hit with `text_k = 3`,
`image_k = 5`. -/
theorem retrieve_bounded_cardinality_witness :
    constEngine [textNode "a", imageNode "f.png", textNode "b", textNode "c"] "summary"
      = .ok [textNode "a", imageNode "f.png", textNode "b", textNode "c"] ∧
    SearchContract [textNode "a", imageNode "f.png", textNode "b", textNode "c"] 3 5 ∧
    (∃ imgs txts,
      retrieve (constEngine [textNode "a", imageNode "f.png", textNode "b", textNode "c"]) "summary"
        = .ok (imgs, txts) ∧ imgs.length ≤ 5 ∧ txts.length ≤ 3) :=
  ⟨rfl, by decide,
    retrieve_bounded_cardinality
      (constEngine [textNode "a", imageNode "f.png", textNode "b", textNode "c"]) "summary"
      [textNode "a", imageNode "f.png", textNode "b", textNode "c"] 3 5 rfl (by decide)⟩

open VideoRetriever in
/-- C5 counterexample: constructing the retriever with `text_k = 0` and
`image_k = 0` succeeds.  `VideoRetriever.__init__` validates nothing and the
repository defines no `ConfigurationError`. -/
theorem init_accepts_invalid_k :
    init 0 0 = .ok { similarity_top_k := 0, image_similarity_top_k := 0 } ∧
    init 0 (-1) ≠ .error (PyErr.configurationError "invalid k") := by
  refine ⟨rfl, ?_⟩; decide

open VideoRetriever in
/-- C5 amended: construction never fails: `__init__` stores the two K values
(and passes them to `index.as_retriever`) without any validation, for every
pair of K values, negative and zero included; no `ConfigurationError` exists
in the code. -/
theorem init_never_fails (text_k image_k : Int) :
    init text_k image_k
      = .ok { similarity_top_k := text_k, image_similarity_top_k := image_k } := rfl

open VideoRetriever in
/-- C6 counterexample: a backend failure is re-raised as itself, not wrapped
in a `RetrievalBackendError`: with an engine raising exception `"boom"`,
`retrieve` propagates exactly that exception. -/
theorem retrieve_backend_error_not_wrapped :
    retrieve (failEngine (PyErr.exc "boom")) "q" = .error (PyErr.exc "boom") ∧
    retrieve (failEngine (PyErr.exc "boom")) "q"
      ≠ .error (PyErr.retrievalBackendError (PyErr.exc "boom")) := by
  refine ⟨rfl, ?_⟩; decide

open VideoRetriever in
/-- C6 amended: every failure raised by the similarity-search backend during
`retrieve` is logged and re-raised unchanged — the original exception
propagates to the caller (it is not wrapped in a `RetrievalBackendError`
carrier) and is never swallowed. -/
theorem retrieve_propagates_backend_error
    (engine : String → Except PyErr (List RetNode)) (q : String) (e : PyErr)
    (herr : engine q = .error e) :
    retrieve engine q = .error e := by
  unfold retrieve
  rw [herr]

open VideoRetriever in
/-- Witness for C6-amended at a concrete failing engine. -/
theorem retrieve_propagates_backend_error_witness :
    failEngine (PyErr.exc "backend down") "q" = .error (PyErr.exc "backend down") ∧
    retrieve (failEngine (PyErr.exc "backend down")) "q" = .error (PyErr.exc "backend down") :=
  ⟨rfl,
    retrieve_propagates_backend_error (failEngine (PyErr.exc "backend down")) "q"
      (PyErr.exc "backend down") rfl⟩

open VideoRetriever in
/-- C7: retrieval is deterministic as a two-run property: two calls of
`retrieve` against the same (unmodified) engine state with the same query
return identical ordered results. -/
theorem retrieve_deterministic
    (engine1 engine2 : String → Except PyErr (List RetNode)) (q1 q2 : String)
    (hengine : engine1 = engine2) (hq : q1 = q2) :
    retrieve engine1 q1 = retrieve engine2 q2 := by
  rw [hengine, hq]

open VideoRetriever RetNode in
/-- Witness for C7: two runs on the same store and query coincide. -/
theorem retrieve_deterministic_witness :
    retrieve (constEngine [imageNode "f.png", textNode "t"]) "query"
      = retrieve (constEngine [imageNode "f.png", textNode "t"]) "query" :=
  retrieve_deterministic (constEngine [imageNode "f.png", textNode "t"])
    (constEngine [imageNode "f.png", textNode "t"]) "query" "query" rfl rfl

namespace VideoProcessor

/-- The error classes the transcript fetch can raise
(`youtube_transcript_api` exceptions, plus any other exception). -/
inductive FetchError where
  | transcriptsDisabled
  | noTranscriptFound
  | otherError (msg : String)
deriving DecidableEq, Repr

/-- One raw transcript entry as delivered by the transcript API: the numeric
`start` and `duration` fields (after the source's `float(entry.get(...))`
conversion, with default 0) and the raw `text` field. -/
structure TranscriptEntry where
  start : ℚ
  duration : ℚ
  text : String
deriving DecidableEq, Repr

/-- `entry["text"].strip().replace('\n', ' ').replace('\r', ' ')` from
`video_processor.py` line 206. -/
def cleanText (s : String) : String :=
  ((s.trim).replace "\n" " ").replace "\r" " "

/-- One caption line written to the caption file
(`<s> start | end | text </s>`, `video_processor.py` line 209), modelled by
its three fields. -/
structure CaptionLine where
  start : ℚ
  endTime : ℚ
  text : String
deriving DecidableEq, Repr

/-- The entry-processing loop of `extract_captions`
(`video_processor.py` lines 201-212): for each entry, `start` is the entry's
start, `end` is `start + duration`, the text is stripped and de-newlined,
and only entries with non-empty cleaned text produce a caption line. -/
def processEntries (srt_data : List TranscriptEntry) : List CaptionLine :=
  srt_data.filterMap fun entry =>
    let start := entry.start
    let endTime := entry.start + entry.duration
    let text := cleanText entry.text
    if text = "" then none else some ⟨start, endTime, text⟩

/-- `VideoProcessor._fetch_original_captions` (`video_processor.py` lines
236-254), parameterised by the outcome of the underlying
`YouTubeTranscriptApi.get_transcript` call: `NoTranscriptFound` is caught and
turned into the empty list, `TranscriptsDisabled` and every other exception
are re-raised. -/
def fetch_original_captions (api : Except FetchError (List TranscriptEntry)) :
    Except FetchError (List TranscriptEntry) :=
  match api with
  | .ok srt_data => .ok srt_data
  | .error .noTranscriptFound => .ok []
  | .error e => .error e

/-- `VideoProcessor.extract_captions` (`video_processor.py` lines 179-234) on
the untranslated path, parameterised by the transcript-API outcome and the
caption file's path.  Returns the caption file path and the caption lines
written to it: an empty transcript, no valid entries, or any fetch error
(`TranscriptsDisabled`, `NoTranscriptFound`, anything else) all yield the
path with an empty caption file. -/
def extract_captions (api : Except FetchError (List TranscriptEntry))
    (caption_file : String) : String × List CaptionLine :=
  match fetch_original_captions api with
  | .ok srt_data =>
    if srt_data.isEmpty then (caption_file, [])
    else
      let caption_text := processEntries srt_data
      if caption_text.isEmpty then (caption_file, [])
      else (caption_file, caption_text)
  | .error _ => (caption_file, [])

end VideoProcessor

open VideoProcessor in
/-- C8: for every failing transcript fetch — transcripts disabled, no
transcript found, or any other error — `extract_captions` does not fail: it
returns the caption file path with zero caption entries (an empty caption
file). -/
theorem extract_captions_fetch_failure_yields_empty
    (e : FetchError) (caption_file : String) :
    extract_captions (.error e) caption_file = (caption_file, []) := by
  cases e <;> rfl

open VideoProcessor in
/-- C9: every caption line produced from transcript entries whose raw `start`
and `duration` are non-negative has `0 ≤ start`, `0 ≤ end` and
`start ≤ end`, where `end = start + duration`. -/
theorem processEntries_span_wellformed
    (srt_data : List VideoProcessor.TranscriptEntry)
    (h : ∀ entry ∈ srt_data, 0 ≤ entry.start ∧ 0 ≤ entry.duration) :
    ∀ c ∈ processEntries srt_data, 0 ≤ c.start ∧ 0 ≤ c.endTime ∧ c.start ≤ c.endTime := by
  intro c hc
  rw [processEntries, List.mem_filterMap] at hc
  obtain ⟨entry, hentry, heq⟩ := hc
  obtain ⟨hs, hd⟩ := h entry hentry
  dsimp only at heq
  by_cases htext : cleanText entry.text = ""
  · rw [if_pos htext] at heq; cases heq
  · rw [if_neg htext] at heq
    cases heq
    refine ⟨hs, ?_, ?_⟩
    · dsimp only; linarith
    · dsimp only; linarith

open VideoProcessor in
/-- Witness for C9 at a concrete two-entry transcript. -/
theorem processEntries_span_wellformed_witness :
    (∀ entry ∈ [VideoProcessor.TranscriptEntry.mk 0 2 "hello",
                VideoProcessor.TranscriptEntry.mk 2 1 "world"],
        0 ≤ entry.start ∧ 0 ≤ entry.duration) ∧
    (∀ c ∈ processEntries [VideoProcessor.TranscriptEntry.mk 0 2 "hello",
                           VideoProcessor.TranscriptEntry.mk 2 1 "world"],
        0 ≤ c.start ∧ 0 ≤ c.endTime ∧ c.start ≤ c.endTime) := by
  refine ⟨by decide, ?_⟩
  exact processEntries_span_wellformed
    [VideoProcessor.TranscriptEntry.mk 0 2 "hello",
     VideoProcessor.TranscriptEntry.mk 2 1 "world"] (by decide)

namespace VideoProcessor

/-- Python's `int()` truncation toward zero on a rational value. -/
def pyInt (q : ℚ) : Int := if q < 0 then -(Int.floor (-q)) else Int.floor q

/-- The FPS actually used by `extract_frames` (`video_processor.py` lines
139-141): a reported FPS that is not positive is replaced by 25. -/
def effective_fps (fps : ℚ) : ℚ := if fps ≤ 0 then 25 else fps

/-- `frame_interval = max(1, int(fps * self.config.get("frame_interval", 1)))`
(`video_processor.py` line 143), with `fps` already defaulted. -/
def frame_interval_of (fps frame_interval_cfg : ℚ) : Nat :=
  (max 1 (pyInt (effective_fps fps * frame_interval_cfg))).toNat

/-- The frame-reading loop of `extract_frames` (`video_processor.py` lines
149-162), recorded as the list of frame indices it saves: starting at
`frame_count`, for each of the remaining frames the index is saved exactly
when `frame_count % frame_interval == 0`, then `frame_count` is
incremented. -/
def framesLoop (frame_interval : Nat) : Nat → Nat → List Nat
  | _, 0 => []
  | frame_count, remaining + 1 =>
    if frame_count % frame_interval = 0 then
      frame_count :: framesLoop frame_interval (frame_count + 1) remaining
    else
      framesLoop frame_interval (frame_count + 1) remaining

/-- The frame indices `extract_frames` saves from a stream of `total_frames`
decodable frames, given the reported FPS and the configured
`frame_interval`. -/
def extract_frames_saved (total_frames : Nat) (fps frame_interval_cfg : ℚ) : List Nat :=
  framesLoop (frame_interval_of fps frame_interval_cfg) 0 total_frames

/-- Membership in the frame loop's output: exactly the in-range indices whose
offset from the starting count is as the modulo test selects. -/
theorem mem_framesLoop (itv : Nat) :
    ∀ (remaining frame_count i : Nat),
      i ∈ framesLoop itv frame_count remaining ↔
        frame_count ≤ i ∧ i < frame_count + remaining ∧ i % itv = 0 := by
  intro remaining
  induction remaining with
  | zero => intro fc i; simp [framesLoop]; omega
  | succ n ih =>
    intro fc i
    rw [framesLoop]
    by_cases hmod : fc % itv = 0
    · rw [if_pos hmod]
      simp only [List.mem_cons, ih (fc + 1) i]
      constructor
      · rintro (rfl | ⟨h1, h2, h3⟩)
        · exact ⟨le_refl _, by omega, hmod⟩
        · exact ⟨by omega, by omega, h3⟩
      · rintro ⟨h1, h2, h3⟩
        by_cases hi : i = fc
        · exact Or.inl hi
        · exact Or.inr ⟨by omega, by omega, h3⟩
    · rw [if_neg hmod]
      rw [ih (fc + 1) i]
      constructor
      · rintro ⟨h1, h2, h3⟩; exact ⟨by omega, by omega, h3⟩
      · rintro ⟨h1, h2, h3⟩
        have : i ≠ fc := by rintro rfl; exact hmod h3
        exact ⟨by omega, by omega, h3⟩

end VideoProcessor

open VideoProcessor in
/-- C10: the frame sampling interval computed by `extract_frames` is always
at least 1 — for every reported FPS (non-positive values defaulting to 25)
and every configured `frame_interval`, zero included — so the modulo test
never divides by zero, and the loop saves exactly the frames whose index is
a multiple of the interval (among the `total_frames` frames read). -/
theorem extract_frames_interval_safe (fps frame_interval_cfg : ℚ)
    (total_frames : Nat) :
    1 ≤ frame_interval_of fps frame_interval_cfg ∧
    ∀ i : Nat, i ∈ extract_frames_saved total_frames fps frame_interval_cfg ↔
      i < total_frames ∧ frame_interval_of fps frame_interval_cfg ∣ i := by
  constructor
  · unfold frame_interval_of
    have h : (1 : Int) ≤ max 1 (pyInt (effective_fps fps * frame_interval_cfg)) :=
      le_max_left 1 _
    omega
  · intro i
    rw [extract_frames_saved, mem_framesLoop]
    rw [Nat.dvd_iff_mod_eq_zero]
    omega
